import Mathlib

/-!
Shallow embedding of the extraction-pipeline core of the repository
(Next.js API routes over a Supabase/Postgres store), together with proofs
about the behaviour the specification claims.

Embedded source files:

* `schema.sql` (src/unnamed/part_000) — the `pages`, `html`, `etl`, `etl_run`
  tables, their columns and NOT NULL constraints;
* the execute route `app/api/pages/[pageId]/etl/[etlId]/run/route.ts`
  (src/unnamed/part_009, `POST`);
* the snapshot route `app/api/pages/[pageId]/runs/route.ts`
  (src/unnamed/part_010, `POST`, plus the html-run select used as the read
  side);
* `app/api/pages/[pageId]/etl/learn/route.ts` (`POST`);
* `app/api/pages/[pageId]/etl/route.ts` (`POST`, the direct create route);
* `handleRetrain` in `components/payment-notifications.tsx`.

Conventions: row identifiers and user identifiers are `Nat` (the uuid values
are opaque tokens; only equality on them matters).  JSON values are the
`Json` inductive below.  Each route handler is a pure function of the
database state, the authenticated user, the request data and the behaviour
of the external collaborator call it makes (modelled as an explicit
argument), returning the HTTP-level result, the new database state and a
trace of the externally visible actions it performed.  The unauthenticated
(401) branch of every route is outside the model: every modelled call
carries the authenticated user's id.
-/

/-- JSON values as stored in `jsonb` columns and exchanged with the
collaborator services. -/
inductive Json where
  | null : Json
  | bool (b : Bool) : Json
  | num (n : Int) : Json
  | str (s : String) : Json
  | arr (elems : List Json) : Json
  | obj (fields : List (String × Json)) : Json

/-- JavaScript truthiness of a JSON value, as used by the routes' `!x` and
`x || null` checks. -/
def Json.truthy : Json → Bool
  | .null => false
  | .bool b => b
  | .num n => n != 0
  | .str s => s != ""
  | .arr _ => true
  | .obj _ => true

/-- JavaScript `String.prototype.trim()` on the whitespace characters that
matter here, written by structural recursion so that it evaluates inside the
kernel (`String.trim` itself is defined by well-founded recursion and does
not reduce). -/
def jsWhitespace (c : Char) : Bool :=
  c == ' ' || c == '\t' || c == '\n' || c == '\r'

/-- See `jsWhitespace`. -/
def jsTrim (s : String) : String :=
  String.mk (((s.data.dropWhile jsWhitespace).reverse.dropWhile jsWhitespace).reverse)

/-- A row of the `pages` table (schema.sql): a tracked URL owned by one
user. -/
structure PageRow where
  id : Nat
  user_id : Nat
  url : String

/-- A row of the `html` table (schema.sql): one immutable HTML capture of a
page. -/
structure HtmlRow where
  id : Nat
  page_id : Nat
  meta : Json
  html : String
  created_at : Nat
  user_id : Nat

/-- A row of the `etl` table (schema.sql): an extraction definition.
`src_code` is `TEXT NOT NULL` with no default; `etl_name` and
`output_json_schema` are nullable. -/
structure EtlRow where
  id : Nat
  user_id : Nat
  page_id : Nat
  created_at : Nat
  etl_name : Option String
  goal : String
  src_code : String
  html_page_run_id : Nat
  output_json_schema : Option Json

/-- A row of the `etl_run` table (schema.sql): one execution of a definition
against a snapshot. -/
structure EtlRunRow where
  id : Nat
  user_id : Nat
  html : Nat
  etl_id : Nat
  created_at : Nat
  output_json : Option Json

/-- The persistent store: the four tables of schema.sql. -/
structure Db where
  pages : List PageRow
  htmls : List HtmlRow
  etls : List EtlRow
  etl_runs : List EtlRunRow

/-- The `pages` select used by every route:
`.from("pages").eq("id", pageId).eq("user_id", user.id).single()`. -/
def Db.findPage (db : Db) (pageId userId : Nat) : Option PageRow :=
  db.pages.find? fun p => p.id == pageId && p.user_id == userId

/-- The `etl` select of the execute route:
`.from("etl").eq("id", etlId).eq("page_id", pageId).eq("user_id", user.id).single()`. -/
def Db.findEtl (db : Db) (etlId pageId userId : Nat) : Option EtlRow :=
  db.etls.find? fun e => e.id == etlId && e.page_id == pageId && e.user_id == userId

/-- The `html` select used by the execute, learn and create routes:
`.from("html").eq("id", id).eq("page_id", pageId).eq("user_id", user.id).single()`. -/
def Db.findHtml (db : Db) (htmlId pageId userId : Nat) : Option HtmlRow :=
  db.htmls.find? fun h => h.id == htmlId && h.page_id == pageId && h.user_id == userId

/-- The still-in-training test of the execute route (and of
`payment-notifications.tsx`):
`!etlConfig.src_code || etlConfig.src_code.trim() === ""`. -/
def isTraining (etlConfig : EtlRow) : Bool :=
  etlConfig.src_code == "" || jsTrim etlConfig.src_code == ""

/-! ## Execute route — `POST /api/pages/[pageId]/etl/[etlId]/run` (part_009) -/

/-- Behaviour of the `fetch` of `WEB_SCRAPE_URL + "/pages/execute-etl"`:
the connection fails, the response has a non-success status, the response
body is not valid JSON, or it is a JSON payload. -/
inductive ExecCollab where
  | fetchError : ExecCollab
  | httpError : ExecCollab
  | malformedJson : ExecCollab
  | ok (extractionResult : Json) : ExecCollab

/-- Externally visible actions of one execute call: the collaborator call
(keyed by the definition and the snapshot it runs against) and the
`etl_run` insert. -/
inductive ExecEvent where
  | collabCall (etlId htmlId : Nat) : ExecEvent
  | insertRun (run : EtlRunRow) : ExecEvent

/-- Result of the execute route, one constructor per `return` site. -/
inductive ExecResult where
  | pageNotFound : ExecResult
  | etlNotFound : ExecResult
  | stillTraining : ExecResult
  | htmlRunNotFound : ExecResult
  | assocHtmlRunNotFound : ExecResult
  | serviceNotConfigured : ExecResult
  | serviceUnavailable : ExecResult
  | executeFailed : ExecResult
  | internalError : ExecResult
  | success (run : EtlRunRow) : ExecResult

/-- Outcome of one execute call. -/
structure ExecOutcome where
  result : ExecResult
  db : Db
  events : List ExecEvent

/-- The tail of the execute route after the HTML run has been selected:
the `WEB_SCRAPE_URL` check, the collaborator call, and on success the
`etl_run` insert `{html, etl_id, output_json, user_id}` (the insert's
column constraints are all satisfied here, so it succeeds). -/
def executeWithRun (db : Db) (userId etlId : Nat) (scrapeUrlConfigured : Bool)
    (collab : ExecCollab) (freshRunId now : Nat) (selectedHtmlRun : HtmlRow) : ExecOutcome :=
  if !scrapeUrlConfigured then ⟨.serviceNotConfigured, db, []⟩
  else
    let call := ExecEvent.collabCall etlId selectedHtmlRun.id
    match collab with
    | .fetchError => ⟨.serviceUnavailable, db, [call]⟩
    | .httpError => ⟨.executeFailed, db, [call]⟩
    | .malformedJson => ⟨.internalError, db, [call]⟩
    | .ok extractionResult =>
      let newRun : EtlRunRow :=
        { id := freshRunId, user_id := userId, html := selectedHtmlRun.id,
          etl_id := etlId, created_at := now, output_json := some extractionResult }
      ⟨.success newRun, { db with etl_runs := db.etl_runs ++ [newRun] },
        [call, .insertRun newRun]⟩

/-- The execute route `POST` of part_009.  `html_run_id` is the optional
body field; `freshRunId`/`now` stand for the uuid and timestamp the insert
generates. -/
def executeRoutePOST (db : Db) (userId pageId etlId : Nat) (html_run_id : Option Nat)
    (scrapeUrlConfigured : Bool) (collab : ExecCollab) (freshRunId now : Nat) : ExecOutcome :=
  match db.findPage pageId userId with
  | none => ⟨.pageNotFound, db, []⟩
  | some _page =>
    match db.findEtl etlId pageId userId with
    | none => ⟨.etlNotFound, db, []⟩
    | some etlConfig =>
      if isTraining etlConfig then ⟨.stillTraining, db, []⟩
      else
        match html_run_id with
        | some hid =>
          match db.findHtml hid pageId userId with
          | none => ⟨.htmlRunNotFound, db, []⟩
          | some selectedHtmlRun =>
            executeWithRun db userId etlId scrapeUrlConfigured collab freshRunId now selectedHtmlRun
        | none =>
          match db.findHtml etlConfig.html_page_run_id pageId userId with
          | none => ⟨.assocHtmlRunNotFound, db, []⟩
          | some selectedHtmlRun =>
            executeWithRun db userId etlId scrapeUrlConfigured collab freshRunId now selectedHtmlRun

/-- The JSON object the execute route passes to
`.from("etl_run").insert([...])`:
`{html: selectedHtmlRun.id, etl_id: etlId, output_json: extractionResult, user_id: user.id}`,
written out for the persisted run record `r`. -/
def etlRunInsertPayload (r : EtlRunRow) : List (String × Json) :=
  [("html", Json.num r.html), ("etl_id", Json.num r.etl_id),
   ("output_json", r.output_json.getD Json.null), ("user_id", Json.num r.user_id)]

/-! ## Learn route — `POST /api/pages/[pageId]/etl/learn` -/

/-- Behaviour of the `fetch` of `WEB_SCRAPE_URL + "/pages/learn-etl"`.
An `ok` response carries the `etl_function_code` and `entities_schema`
fields of its JSON body (each possibly absent). -/
inductive LearnCollab where
  | fetchError : LearnCollab
  | httpError : LearnCollab
  | malformedJson : LearnCollab
  | ok (etl_function_code : Option String) (entities_schema : Option Json) : LearnCollab

/-- Result of the learn route, one constructor per `return` site.
`internalError` is the catch-all 500 reached when the collaborator `fetch`
throws or its body fails to parse. -/
inductive LearnResult where
  | pageNotFound : LearnResult
  | goalRequired : LearnResult
  | htmlRunRequired : LearnResult
  | htmlRunNotFound : LearnResult
  | learnFailed : LearnResult
  | codeNotGenerated : LearnResult
  | internalError : LearnResult
  | insertFailed : LearnResult
  | success (etl : EtlRow) : LearnResult

/-- Outcome of one learn call; `genCalls` counts the calls made to the
generation collaborator. -/
structure LearnOutcome where
  result : LearnResult
  db : Db
  genCalls : Nat

/-- The `etl` row the learn route inserts:
`{user_id, page_id, goal, output_json_schema: entities_schema || null, src_code: etl_function_code, html_page_run_id}`. -/
def learnRow (userId pageId : Nat) (g : String) (hid : Nat) (code : String)
    (entities_schema : Option Json) (freshEtlId now : Nat) : EtlRow :=
  { id := freshEtlId, user_id := userId, page_id := pageId, created_at := now,
    etl_name := none, goal := g, src_code := code, html_page_run_id := hid,
    output_json_schema :=
      match entities_schema with
      | some s => if s.truthy then some s else none
      | none => none }

/-- The learn route `POST`.  The body fields `goal` and `html_page_run_id`
are optional inputs checked for JavaScript truthiness; the insert stores
the collaborator's code and schema (`entities_schema || null`) together
with the caller's goal and snapshot.  The insert's column constraints are
satisfied on this path, so it succeeds. -/
def learnRoutePOST (db : Db) (userId pageId : Nat) (goal : Option String)
    (html_page_run_id : Option Nat) (collab : LearnCollab)
    (freshEtlId now : Nat) : LearnOutcome :=
  match db.findPage pageId userId with
  | none => ⟨.pageNotFound, db, 0⟩
  | some _pageData =>
    match goal with
    | none => ⟨.goalRequired, db, 0⟩
    | some g =>
      if g == "" then ⟨.goalRequired, db, 0⟩
      else
        match html_page_run_id with
        | none => ⟨.htmlRunRequired, db, 0⟩
        | some hid =>
          match db.findHtml hid pageId userId with
          | none => ⟨.htmlRunNotFound, db, 0⟩
          | some _htmlRunData =>
            match collab with
            | .fetchError => ⟨.internalError, db, 1⟩
            | .httpError => ⟨.learnFailed, db, 1⟩
            | .malformedJson => ⟨.internalError, db, 1⟩
            | .ok etl_function_code entities_schema =>
              match etl_function_code with
              | none => ⟨.codeNotGenerated, db, 1⟩
              | some code =>
                if code == "" then ⟨.codeNotGenerated, db, 1⟩
                else
                  let newEtl : EtlRow :=
                    learnRow userId pageId g hid code entities_schema freshEtlId now
                  ⟨.success newEtl, { db with etls := db.etls ++ [newEtl] }, 1⟩

/-! ## Direct create route — `POST /api/pages/[pageId]/etl` -/

/-- The caller-supplied body of the direct create route (the declared
insert columns minus `page_id`/`user_id`, every field optional at the
transport level). -/
structure EtlInsertBody where
  etl_name : Option String
  goal : Option String
  src_code : Option String
  html_page_run_id : Option Nat
  output_json_schema : Option Json

/-- Result of the direct create route, one constructor per `return` site.
`insertFailed` is the 400 returned when the database rejects the insert
(in this model: the `src_code NOT NULL` constraint of schema.sql). -/
inductive CreateEtlResult where
  | pageNotFound : CreateEtlResult
  | goalRequired : CreateEtlResult
  | htmlRunRequired : CreateEtlResult
  | htmlRunNotFound : CreateEtlResult
  | insertFailed : CreateEtlResult
  | success (etl : EtlRow) : CreateEtlResult

/-- Outcome of one direct create call; `genCalls` counts the calls made to
the generation collaborator (this route contains no collaborator call, so
every path reports zero). -/
structure CreateEtlOutcome where
  result : CreateEtlResult
  db : Db
  genCalls : Nat

/-- The `etl` row the direct create route inserts: the spread
`{...body, page_id: pageId, user_id: user.id}` with the already-validated
`goal`, `html_page_run_id` and (NOT NULL) `src_code` fields made
explicit. -/
def directCreateRow (userId pageId : Nat) (body : EtlInsertBody) (g : String)
    (hid : Nat) (code : String) (freshEtlId now : Nat) : EtlRow :=
  { id := freshEtlId, user_id := userId, page_id := pageId, created_at := now,
    etl_name := body.etl_name, goal := g, src_code := code,
    html_page_run_id := hid, output_json_schema := body.output_json_schema }

/-- The direct create route `POST`: validates the page, the truthiness of
`goal` and `html_page_run_id`, the existence of the HTML run, then inserts
`{...body, page_id: pageId, user_id: user.id}` verbatim.  A body without
`src_code` violates the table's NOT NULL constraint and the insert is
rejected. -/
def etlRoutePOST (db : Db) (userId pageId : Nat) (body : EtlInsertBody)
    (freshEtlId now : Nat) : CreateEtlOutcome :=
  match db.findPage pageId userId with
  | none => ⟨.pageNotFound, db, 0⟩
  | some _page =>
    match body.goal with
    | none => ⟨.goalRequired, db, 0⟩
    | some g =>
      if g == "" then ⟨.goalRequired, db, 0⟩
      else
        match body.html_page_run_id with
        | none => ⟨.htmlRunRequired, db, 0⟩
        | some hid =>
          match db.findHtml hid pageId userId with
          | none => ⟨.htmlRunNotFound, db, 0⟩
          | some _htmlRun =>
            match body.src_code with
            | none => ⟨.insertFailed, db, 0⟩
            | some code =>
              let newEtl : EtlRow :=
                directCreateRow userId pageId body g hid code freshEtlId now
              ⟨.success newEtl, { db with etls := db.etls ++ [newEtl] }, 0⟩

/-! ## Retrain — `handleRetrain` in `components/payment-notifications.tsx` -/

/-- The request body `handleRetrain` sends to `/api/pages/[pageId]/etl`:
a composed goal, the parent's snapshot, and a derived name
(`retrainConfig.etl_name || "Untitled"` is the JavaScript falsy
alternative, so an empty stored name also falls back).  `JSON.stringify`
omits the fields the handler does not set, in particular `src_code`. -/
def retrainRequestBody (retrainConfig : EtlRow) (refinementGoal : String) : EtlInsertBody :=
  { etl_name :=
      some ((match retrainConfig.etl_name with
             | some n => if n == "" then "Untitled" else n
             | none => "Untitled") ++ " - Retrained"),
    goal := some (retrainConfig.goal ++ "\n\nRefinement Goal: " ++ refinementGoal),
    src_code := none,
    html_page_run_id := some retrainConfig.html_page_run_id,
    output_json_schema := none }

/-- The retrain flow: guard
`if (!retrainConfig || !refinementGoal.trim()) return;` then a `POST` of
`retrainRequestBody` to the direct create route.  `none` is the guard's
early return (no request made). -/
def handleRetrain (db : Db) (userId pageId : Nat) (retrainConfig : EtlRow)
    (refinementGoal : String) (freshEtlId now : Nat) : Option CreateEtlOutcome :=
  if jsTrim refinementGoal == "" then none
  else some (etlRoutePOST db userId pageId
    (retrainRequestBody retrainConfig refinementGoal) freshEtlId now)

/-! ## Snapshot route — `POST /api/pages/[pageId]/runs` (part_010) -/

/-- Behaviour of the scrape-fetch collaborator call
(`WEB_SCRAPE_URL + "/pages/get-html"`): a non-success status, or a JSON
body whose `html` field may be absent.  `status` is the HTTP status of the
response. -/
inductive ScrapeFetch where
  | httpError (status : Nat) : ScrapeFetch
  | ok (html : Option String) (meta : Json) (status : Nat) : ScrapeFetch

/-- Result of the snapshot route, one constructor per `return` site. -/
inductive CreateHtmlResult where
  | pageNotFound : CreateHtmlResult
  | scrapeFailed (status : Nat) : CreateHtmlResult
  | noHtmlFromScraper : CreateHtmlResult
  | success (run : HtmlRow) : CreateHtmlResult

/-- Outcome of one snapshot creation call. -/
structure CreateHtmlOutcome where
  result : CreateHtmlResult
  db : Db

/-- The `meta` object the snapshot route stores:
`{url, fetch_timestamp, html_length, scraper_service, response_status, scraper_meta}`. -/
def snapshotMeta (url fetchTimestamp : String) (htmlLength responseStatus : Nat)
    (scraperMeta : Json) : Json :=
  Json.obj [("url", .str url), ("fetch_timestamp", .str fetchTimestamp),
            ("html_length", .num htmlLength), ("scraper_service", .str "pagent-os-api"),
            ("response_status", .num responseStatus), ("scraper_meta", scraperMeta)]

/-- The `html` row the snapshot route inserts:
`{page_id, html, meta, user_id}` with the fetched HTML stored verbatim. -/
def snapshotRow (userId pageId : Nat) (page : PageRow) (html ts : String)
    (status : Nat) (scraperMeta : Json) (freshHtmlId now : Nat) : HtmlRow :=
  { id := freshHtmlId, page_id := pageId, html := html,
    meta := snapshotMeta page.url ts html.length status scraperMeta,
    created_at := now, user_id := userId }

/-- The snapshot route `POST` of part_010: validates the page, calls the
scrape-fetch collaborator, rejects an absent or empty `html`
(`!htmlData || !htmlData.html`), and otherwise inserts the fetched HTML
verbatim together with the built `meta`. -/
def htmlRoutePOST (db : Db) (userId pageId : Nat) (scrape : ScrapeFetch)
    (fetchTimestamp : String) (freshHtmlId now : Nat) : CreateHtmlOutcome :=
  match db.findPage pageId userId with
  | none => ⟨.pageNotFound, db⟩
  | some page =>
    match scrape with
    | .httpError status => ⟨.scrapeFailed status, db⟩
    | .ok htmlOpt scraperMeta status =>
      match htmlOpt with
      | none => ⟨.noHtmlFromScraper, db⟩
      | some html =>
        if html == "" then ⟨.noHtmlFromScraper, db⟩
        else
          let newRun : HtmlRow :=
            snapshotRow userId pageId page html fetchTimestamp status scraperMeta freshHtmlId now
          ⟨.success newRun, { db with htmls := db.htmls ++ [newRun] }⟩

/-! ## Concurrency model

The routes run in concurrently executing request handlers.  A schedule of
two overlapping execute calls is any interleaving of their event traces,
with each event tagged by the thread it belongs to. -/

/-- `Merge xs ys zs`: the tagged list `zs` is an interleaving of thread
`true`'s trace `xs` with thread `false`'s trace `ys`, preserving each
thread's order. -/
inductive Merge {α : Type} : List α → List α → List (Bool × α) → Prop where
  | nil : Merge [] [] []
  | left {x : α} {xs ys : List α} {zs : List (Bool × α)} :
      Merge xs ys zs → Merge (x :: xs) ys ((true, x) :: zs)
  | right {y : α} {xs ys : List α} {zs : List (Bool × α)} :
      Merge xs ys zs → Merge xs (y :: ys) ((false, y) :: zs)

/-- Does `l` contain `pat` as a (not necessarily contiguous)
subsequence?  Used on thread tags to detect overlap. -/
def containsPattern : List Bool → List Bool → Bool
  | [], _ => true
  | _ :: _, [] => false
  | p :: ps, x :: xs =>
    if p == x then containsPattern ps xs else containsPattern (p :: ps) xs

/-- Two calls overlap in a schedule when some event of one thread falls
strictly between two events of the other: the tag sequence contains the
alternation `[t, not t, t]`. -/
def overlapping (tags : List Bool) : Bool :=
  containsPattern [true, false, true] tags || containsPattern [false, true, false] tags

/-- Is this event a collaborator execution call for the definition-snapshot
pair `p`? -/
def ExecEvent.isCollabCallFor (p : Nat × Nat) : ExecEvent → Bool
  | .collabCall e h => e == p.1 && h == p.2
  | .insertRun _ => false

/-- Is this event an `etl_run` insert? -/
def ExecEvent.isInsert : ExecEvent → Bool
  | .collabCall _ _ => false
  | .insertRun _ => true

/-- Number of collaborator execution calls for the pair `p` in an event
list. -/
def collabCallsFor (p : Nat × Nat) (events : List ExecEvent) : Nat :=
  events.countP (ExecEvent.isCollabCallFor p)

/-- Number of `etl_run` inserts in an event list. -/
def insertsIn (events : List ExecEvent) : Nat :=
  events.countP ExecEvent.isInsert

/-! ## Spec-side drift comparison (for the drift claim)

No drift computation exists anywhere in the source; the following two
definitions are the specification's description of one, used to compare the
spec's expectation with what the code persists. -/

/-- Modelled from the spec: the top-level keys of a JSON value (the field
set of a declared schema object, or the keys of an output object). -/
def Json.topLevelKeys : Json → List String
  | .obj fields => fields.map Prod.fst
  | _ => []

/-- Modelled from the spec: the best-effort structural comparison between a
declared schema's field set and an output's top-level keys — `true` when the
output is missing a declared field.  The execute route computes nothing of
this kind. -/
def driftedSpec (declaredSchema output : Json) : Bool :=
  declaredSchema.topLevelKeys.any fun f => !(output.topLevelKeys.contains f)

/-! ## Operation sequences

All state-changing operations of the embedded core, used to express that
stored snapshot content survives any later activity unchanged. -/

/-- One call to any of the modelled state-changing routes, with all of its
request data and collaborator behaviour. -/
inductive CoreOp where
  | snapshot (userId pageId : Nat) (scrape : ScrapeFetch) (ts : String) (freshId now : Nat)
  | learn (userId pageId : Nat) (goal : Option String) (hid : Option Nat)
      (collab : LearnCollab) (freshId now : Nat)
  | createEtl (userId pageId : Nat) (body : EtlInsertBody) (freshId now : Nat)
  | retrain (userId pageId : Nat) (cfg : EtlRow) (refinement : String) (freshId now : Nat)
  | execute (userId pageId etlId : Nat) (hid : Option Nat) (cfgUrl : Bool)
      (collab : ExecCollab) (freshId now : Nat)

/-- The database state after one operation. -/
def CoreOp.apply : CoreOp → Db → Db
  | .snapshot u p s ts f n, db => (htmlRoutePOST db u p s ts f n).db
  | .learn u p g h c f n, db => (learnRoutePOST db u p g h c f n).db
  | .createEtl u p b f n, db => (etlRoutePOST db u p b f n).db
  | .retrain u p cfg r f n, db =>
      match handleRetrain db u p cfg r f n with
      | none => db
      | some o => o.db
  | .execute u p e h c col f n, db => (executeRoutePOST db u p e h c col f n).db

/-- The database state after a sequence of operations. -/
def applyOps : List CoreOp → Db → Db
  | [], db => db
  | op :: ops, db => applyOps ops (op.apply db)

/-! ## Concrete store fixtures used by witnesses and counterexamples -/

/-- A page owned by user 1. -/
def pageFixture : PageRow := { id := 1, user_id := 1, url := "https://shop.example/products" }

/-- A second page of the same user, for cross-page scenarios. -/
def pageTwoFixture : PageRow := { id := 2, user_id := 1, url := "https://shop.example/deals" }

/-- A snapshot of page 1. -/
def htmlFixture : HtmlRow :=
  { id := 10, page_id := 1, meta := Json.obj [], html := "<html>A</html>",
    created_at := 1, user_id := 1 }

/-- A snapshot of page 2 (same owner, different page). -/
def htmlCrossFixture : HtmlRow :=
  { id := 11, page_id := 2, meta := Json.obj [], html := "<html>B</html>",
    created_at := 2, user_id := 1 }

/-- A ready definition on page 1 (non-empty source code). -/
def readyEtlFixture : EtlRow :=
  { id := 20, user_id := 1, page_id := 1, created_at := 3, etl_name := some "Products",
    goal := "extract title", src_code := "def etl(html): return data",
    html_page_run_id := 10, output_json_schema := none }

/-- A ready definition on page 1 carrying a declared output schema with
fields `title` and `price`. -/
def schemaEtlFixture : EtlRow :=
  { readyEtlFixture with
      id := 21
      output_json_schema :=
        some (Json.obj [("title", Json.str "string"), ("price", Json.str "number")]) }

/-- A definition on page 1 whose source code is empty: the routes treat it
as still being trained. -/
def pendingEtlFixture : EtlRow :=
  { readyEtlFixture with id := 22, src_code := "" }

/-- The concrete store. -/
def dbFixture : Db :=
  { pages := [pageFixture, pageTwoFixture],
    htmls := [htmlFixture, htmlCrossFixture],
    etls := [readyEtlFixture, schemaEtlFixture, pendingEtlFixture],
    etl_runs := [] }

/-- The spec scenario's drifted output: `{title: "x"}`, missing the
declared `price` field. -/
def driftOutputFixture : Json := Json.obj [("title", Json.str "x")]

/-- The run record the execute route persists for `driftOutputFixture`
against definition 21. -/
def runDriftFixture : EtlRunRow :=
  { id := 100, user_id := 1, html := 10, etl_id := 21, created_at := 9,
    output_json := some driftOutputFixture }

/-- The run the first concurrent execution persists. -/
def runAFixture : EtlRunRow :=
  { id := 100, user_id := 1, html := 10, etl_id := 20, created_at := 9,
    output_json := some (Json.obj []) }

/-- The run the second concurrent execution persists. -/
def runBFixture : EtlRunRow :=
  { id := 101, user_id := 1, html := 10, etl_id := 20, created_at := 9,
    output_json := some (Json.obj []) }

/-! ## Helper lemmas -/

/-- The execute tail never touches the `html` table. -/
theorem executeWithRun_htmls (db : Db) (userId etlId : Nat) (cfg : Bool)
    (collab : ExecCollab) (f n : Nat) (sel : HtmlRow) :
    (executeWithRun db userId etlId cfg collab f n sel).db.htmls = db.htmls := by
  unfold executeWithRun
  split
  · rfl
  · cases collab <;> rfl

/-- The execute tail never touches the `etl` table. -/
theorem executeWithRun_etls (db : Db) (userId etlId : Nat) (cfg : Bool)
    (collab : ExecCollab) (f n : Nat) (sel : HtmlRow) :
    (executeWithRun db userId etlId cfg collab f n sel).db.etls = db.etls := by
  unfold executeWithRun
  split
  · rfl
  · cases collab <;> rfl

/-- The execute route never touches the `html` table. -/
theorem executeRoutePOST_htmls (db : Db) (userId pageId etlId : Nat)
    (hid : Option Nat) (cfg : Bool) (collab : ExecCollab) (f n : Nat) :
    (executeRoutePOST db userId pageId etlId hid cfg collab f n).db.htmls = db.htmls := by
  unfold executeRoutePOST
  repeat' split
  all_goals first
    | rfl
    | exact executeWithRun_htmls ..

/-- The execute route never touches the `etl` table. -/
theorem executeRoutePOST_etls (db : Db) (userId pageId etlId : Nat)
    (hid : Option Nat) (cfg : Bool) (collab : ExecCollab) (f n : Nat) :
    (executeRoutePOST db userId pageId etlId hid cfg collab f n).db.etls = db.etls := by
  unfold executeRoutePOST
  repeat' split
  all_goals first
    | rfl
    | exact executeWithRun_etls ..

/-- The learn route only ever appends to the `etl` table; `html` is
untouched. -/
theorem learnRoutePOST_htmls (db : Db) (userId pageId : Nat) (goal : Option String)
    (hid : Option Nat) (collab : LearnCollab) (f n : Nat) :
    (learnRoutePOST db userId pageId goal hid collab f n).db.htmls = db.htmls := by
  unfold learnRoutePOST
  repeat' split
  all_goals rfl

/-- The direct create route never touches the `html` table. -/
theorem etlRoutePOST_htmls (db : Db) (userId pageId : Nat) (body : EtlInsertBody)
    (f n : Nat) :
    (etlRoutePOST db userId pageId body f n).db.htmls = db.htmls := by
  unfold etlRoutePOST
  repeat' split
  all_goals rfl

/-- The snapshot route only ever appends to the `html` table. -/
theorem htmlRoutePOST_htmls_append (db : Db) (userId pageId : Nat)
    (scrape : ScrapeFetch) (ts : String) (f n : Nat) :
    ∃ s, (htmlRoutePOST db userId pageId scrape ts f n).db.htmls = db.htmls ++ s := by
  unfold htmlRoutePOST
  repeat' split
  all_goals first
    | exact ⟨[], (List.append_nil _).symm⟩
    | exact ⟨_, rfl⟩

/-- Any single modelled operation only ever appends to the `html` table. -/
theorem CoreOp.apply_htmls (op : CoreOp) (db : Db) :
    ∃ s, (op.apply db).htmls = db.htmls ++ s := by
  cases op with
  | snapshot u p s ts f n => exact htmlRoutePOST_htmls_append db u p s ts f n
  | learn u p g h c f n =>
    exact ⟨[], by simp [CoreOp.apply, learnRoutePOST_htmls]⟩
  | createEtl u p b f n =>
    exact ⟨[], by simp [CoreOp.apply, etlRoutePOST_htmls]⟩
  | retrain u p cfg r f n =>
    refine ⟨[], ?_⟩
    simp only [CoreOp.apply, handleRetrain]
    rw [List.append_nil]
    split
    · rfl
    · rename_i o heq
      split at heq
      · simp at heq
      · injection heq with h
        rw [← h]
        exact etlRoutePOST_htmls ..
  | execute u p e h c col f n =>
    exact ⟨[], by simp [CoreOp.apply, executeRoutePOST_htmls]⟩

/-- Any sequence of modelled operations only ever appends to the `html`
table. -/
theorem applyOps_htmls (ops : List CoreOp) (db : Db) :
    ∃ s, (applyOps ops db).htmls = db.htmls ++ s := by
  induction ops generalizing db with
  | nil => exact ⟨[], (List.append_nil _).symm⟩
  | cons op ops ih =>
    obtain ⟨s₁, h₁⟩ := CoreOp.apply_htmls op db
    obtain ⟨s₂, h₂⟩ := ih (op.apply db)
    exact ⟨s₁ ++ s₂, by rw [applyOps, h₂, h₁, List.append_assoc]⟩

/-- A successful `find?` is preserved by appending rows. -/
theorem find?_append_of_some {α : Type} {p : α → Bool} {l₁ : List α} {a : α}
    (l₂ : List α) (h : l₁.find? p = some a) : (l₁ ++ l₂).find? p = some a := by
  rw [List.find?_append, h]; rfl

/-- Counting over an interleaving adds the two threads' counts. -/
theorem Merge.countP_map_snd {α : Type} {xs ys : List α} {zs : List (Bool × α)}
    (h : Merge xs ys zs) (p : α → Bool) :
    (zs.map Prod.snd).countP p = xs.countP p + ys.countP p := by
  induction h with
  | nil => rfl
  | left _ ih => simp only [List.map_cons, List.countP_cons, ih]; omega
  | right _ ih => simp only [List.map_cons, List.countP_cons, ih]; omega

/-- A single event contributes at most one collaborator call. -/
theorem collabCallsFor_single_le (p : Nat × Nat) (e : ExecEvent) :
    collabCallsFor p [e] ≤ 1 := by
  simp only [collabCallsFor, List.countP_cons, List.countP_nil]
  split <;> omega

/-- An empty trace contains no collaborator call. -/
theorem collabCallsFor_nil (p : Nat × Nat) :
    collabCallsFor p ([] : List ExecEvent) = 0 := rfl

/-- Characterization of a successful execute tail: the collaborator
responded with a payload, the persisted run is built from it, the store
gained exactly that run, and the trace is one collaborator call followed by
one insert. -/
theorem executeWithRun_success {db : Db} {userId etlId : Nat} {cfg : Bool}
    {collab : ExecCollab} {f n : Nat} {sel : HtmlRow} {run : EtlRunRow}
    (h : (executeWithRun db userId etlId cfg collab f n sel).result = .success run) :
    ∃ out, collab = .ok out ∧
      run = { id := f, user_id := userId, html := sel.id, etl_id := etlId,
              created_at := n, output_json := some out } ∧
      executeWithRun db userId etlId cfg collab f n sel
        = ⟨.success run, { db with etl_runs := db.etl_runs ++ [run] },
           [.collabCall etlId sel.id, .insertRun run]⟩ := by
  cases cfg with
  | false => exact absurd h (fun hh => ExecResult.noConfusion hh)
  | true =>
    cases collab with
    | fetchError => exact absurd h (fun hh => ExecResult.noConfusion hh)
    | httpError => exact absurd h (fun hh => ExecResult.noConfusion hh)
    | malformedJson => exact absurd h (fun hh => ExecResult.noConfusion hh)
    | ok out =>
      injection h with h3
      exact ⟨out, rfl, h3.symm, by rw [← h3]; rfl⟩

/-- Characterization of a successful execute call: the collaborator
responded with a payload; the persisted run stores the raw payload under
the fresh id, and the route appended exactly that run to the store after a
trace of one collaborator call (keyed by the definition and the selected
snapshot) followed by one insert. -/
theorem executeRoutePOST_success {db : Db} {userId pageId etlId : Nat} {hid : Option Nat}
    {cfg : Bool} {collab : ExecCollab} {f n : Nat} {run : EtlRunRow} :
    (executeRoutePOST db userId pageId etlId hid cfg collab f n).result = .success run →
    ∃ out, collab = .ok out ∧ run.id = f ∧ run.user_id = userId ∧
      run.etl_id = etlId ∧ run.created_at = n ∧ run.output_json = some out ∧
      executeRoutePOST db userId pageId etlId hid cfg collab f n
        = ⟨.success run, { db with etl_runs := db.etl_runs ++ [run] },
           [.collabCall etlId run.html, .insertRun run]⟩ := by
  unfold executeRoutePOST
  repeat' split
  all_goals intro h
  all_goals first
    | exact absurd h (fun hh => ExecResult.noConfusion hh)
    | (obtain ⟨out, hc, hrun, heq⟩ := executeWithRun_success h
       subst hrun
       exact ⟨out, hc, rfl, rfl, rfl, rfl, rfl, heq⟩)

/-- The direct create route makes no generation-collaborator call on any
path. -/
theorem etlRoutePOST_genCalls (db : Db) (userId pageId : Nat) (body : EtlInsertBody)
    (f n : Nat) : (etlRoutePOST db userId pageId body f n).genCalls = 0 := by
  unfold etlRoutePOST
  repeat' split
  all_goals rfl

/-- The learn route makes at most one generation-collaborator call on any
path. -/
theorem learnRoutePOST_genCalls_le_one (db : Db) (userId pageId : Nat)
    (goal : Option String) (hid : Option Nat) (collab : LearnCollab) (f n : Nat) :
    (learnRoutePOST db userId pageId goal hid collab f n).genCalls ≤ 1 := by
  unfold learnRoutePOST
  repeat' split
  all_goals first
    | exact Nat.le_refl 1
    | exact Nat.zero_le 1

/-! ## Claim C4 -/

/-- C4: an `Execute` call on a definition that has not finished training
(the route's own test: `src_code` absent or trim-empty, the code's
PENDING_TRAINING state) always returns the still-being-trained error with
the store unchanged and an empty action trace — in particular the
execution collaborator is never invoked. -/
theorem execute_pending_definition_rejected (db : Db) (userId pageId etlId : Nat)
    (hid : Option Nat) (cfg : Bool) (collab : ExecCollab) (f n : Nat)
    (page : PageRow) (etlConfig : EtlRow)
    (hpage : db.findPage pageId userId = some page)
    (hetl : db.findEtl etlId pageId userId = some etlConfig)
    (htrain : isTraining etlConfig = true) :
    executeRoutePOST db userId pageId etlId hid cfg collab f n
      = ⟨.stillTraining, db, []⟩ := by
  simp only [executeRoutePOST, hpage, hetl, htrain]
  rfl

/-- Witness: C4's theorem applied at the concrete store, whose definition
22 has empty source code. -/
theorem execute_pending_definition_rejected_witness :
    executeRoutePOST dbFixture 1 1 22 none true (.ok (Json.obj [])) 100 9
      = ⟨.stillTraining, dbFixture, []⟩ :=
  execute_pending_definition_rejected dbFixture 1 1 22 none true (.ok (Json.obj [])) 100 9
    pageFixture pendingEtlFixture rfl rfl rfl

/-! ## Claim C3 -/

/-- Failure behaviour of the execute tail: a failing collaborator call
leaves the store unchanged and produces no run. -/
theorem executeWithRun_failure (db : Db) (userId etlId : Nat) (cfg : Bool)
    (collab : ExecCollab) (f n : Nat) (sel : HtmlRow)
    (hfail : collab = .fetchError ∨ collab = .httpError ∨ collab = .malformedJson) :
    (executeWithRun db userId etlId cfg collab f n sel).db = db ∧
    (∀ r, (executeWithRun db userId etlId cfg collab f n sel).result ≠ .success r) ∧
    (∀ p, collabCallsFor p (executeWithRun db userId etlId cfg collab f n sel).events ≤ 1) := by
  rcases hfail with rfl | rfl | rfl <;> cases cfg <;>
    refine ⟨rfl, fun r hh => ExecResult.noConfusion hh, fun p => ?_⟩ <;>
    first
      | exact Nat.zero_le 1
      | exact collabCallsFor_single_le p _

/-- C3: when the execution collaborator fails — connection error,
non-success status, or malformed response body — the store after the call
is exactly the store before (no run row persisted), the caller receives a
non-success result, and at most one collaborator call was made: the route
performs no automatic retry. -/
theorem execute_collab_failure_leaves_history_unchanged (db : Db)
    (userId pageId etlId : Nat) (hid : Option Nat) (cfg : Bool)
    (collab : ExecCollab) (f n : Nat)
    (hfail : collab = .fetchError ∨ collab = .httpError ∨ collab = .malformedJson) :
    (executeRoutePOST db userId pageId etlId hid cfg collab f n).db = db ∧
    (∀ r, (executeRoutePOST db userId pageId etlId hid cfg collab f n).result ≠ .success r) ∧
    (∀ p, collabCallsFor p (executeRoutePOST db userId pageId etlId hid cfg collab f n).events ≤ 1) := by
  unfold executeRoutePOST
  repeat' split
  all_goals first
    | exact executeWithRun_failure db userId etlId cfg collab f n _ hfail
    | exact ⟨rfl, fun r hh => ExecResult.noConfusion hh, fun p => Nat.zero_le 1⟩

/-- Witness: C3's theorem applied with a failing (non-success status)
collaborator at the concrete store — the run history is unchanged. -/
theorem execute_collab_failure_leaves_history_unchanged_witness :
    (executeRoutePOST dbFixture 1 1 20 (some 10) true .httpError 100 9).db = dbFixture :=
  (execute_collab_failure_leaves_history_unchanged dbFixture 1 1 20 (some 10) true
    .httpError 100 9 (Or.inr (Or.inl rfl))).1

/-! ## Claim C5 -/

/-- C5 (amended): an `Execute` call naming a snapshot that does not belong
to the definition's page fails before any collaborator call — but with the
route's generic not-found response (404 "HTML run not found or access
denied", the same response an absent snapshot gets), not a distinct
cross-page-mismatch error. -/
theorem execute_cross_page_snapshot_generic_not_found (db : Db)
    (userId pageId etlId hid : Nat) (cfg : Bool) (collab : ExecCollab) (f n : Nat)
    (page : PageRow) (etlConfig : EtlRow)
    (hpage : db.findPage pageId userId = some page)
    (hetl : db.findEtl etlId pageId userId = some etlConfig)
    (htrain : isTraining etlConfig = false)
    (hcross : ∀ r ∈ db.htmls, r.id = hid → r.page_id ≠ pageId) :
    executeRoutePOST db userId pageId etlId (some hid) cfg collab f n
      = ⟨.htmlRunNotFound, db, []⟩ := by
  have hfind : db.findHtml hid pageId userId = none := by
    unfold Db.findHtml
    rw [List.find?_eq_none]
    intro r hr hcon
    simp only [Bool.and_eq_true, beq_iff_eq] at hcon
    exact hcross r hr hcon.1.1 hcon.1.2
  simp only [executeRoutePOST, hpage, hetl, htrain, hfind]
  rfl

/-- Witness: C5's amended theorem applied at the concrete store, asking
definition 20 (page 1) to run against snapshot 11 (page 2). -/
theorem execute_cross_page_snapshot_generic_not_found_witness :
    executeRoutePOST dbFixture 1 1 20 (some 11) true (.ok (Json.obj [])) 100 9
      = ⟨.htmlRunNotFound, dbFixture, []⟩ :=
  execute_cross_page_snapshot_generic_not_found dbFixture 1 1 20 11 true
    (.ok (Json.obj [])) 100 9 pageFixture readyEtlFixture rfl rfl rfl (by decide)

/-- C5 counterexample: the claim says a cross-page `Execute` fails with a
CrossPageMismatch error.  In the code there is no such error: asking
definition 20 (page 1) to run against snapshot 11 (page 2, same owner)
yields exactly the same not-found response as asking it to run against
snapshot 99, which does not exist at all, so the cross-page case is not
distinguishable from an absent snapshot.  (No collaborator call is made in
either case, which is the part of the claim that does hold.) -/
theorem execute_cross_page_counterexample :
    executeRoutePOST dbFixture 1 1 20 (some 11) true (.ok (Json.obj [])) 100 9
      = ⟨.htmlRunNotFound, dbFixture, []⟩ ∧
    executeRoutePOST dbFixture 1 1 20 (some 99) true (.ok (Json.obj [])) 100 9
      = ⟨.htmlRunNotFound, dbFixture, []⟩ :=
  ⟨rfl, rfl⟩

/-! ## Claim C6 -/

/-- C6 (amended): a successful `Execute` persists the collaborator's raw
output unannotated: the inserted record's keys are exactly `html`,
`etl_id`, `output_json` and `user_id` — there is no `drifted` key — and
`output_json` is the raw collaborator payload, whatever the definition's
declared schema.  So a schema mismatch indeed never blocks persistence,
but no drift comparison is computed or attached either. -/
theorem execute_success_persists_raw_output_undrifted (db : Db)
    (userId pageId etlId : Nat) (hid : Option Nat) (cfg : Bool)
    (collab : ExecCollab) (f n : Nat) (run : EtlRunRow)
    (h : (executeRoutePOST db userId pageId etlId hid cfg collab f n).result = .success run) :
    (etlRunInsertPayload run).map Prod.fst = ["html", "etl_id", "output_json", "user_id"] ∧
    (etlRunInsertPayload run).lookup "drifted" = none ∧
    (∃ out, collab = .ok out ∧ run.output_json = some out) ∧
    (executeRoutePOST db userId pageId etlId hid cfg collab f n).db.etl_runs
      = db.etl_runs ++ [run] := by
  obtain ⟨out, hc, _, _, _, _, hout, heq⟩ := executeRoutePOST_success h
  refine ⟨rfl, rfl, ⟨out, hc, hout⟩, ?_⟩
  rw [heq]

/-- Witness: C6's amended theorem applied at the concrete store, running
definition 21 (declared schema with `title` and `price`) on an output that
misses `price`. -/
theorem execute_success_persists_raw_output_undrifted_witness :
    (etlRunInsertPayload runDriftFixture).lookup "drifted" = none ∧
    (executeRoutePOST dbFixture 1 1 21 none true (.ok driftOutputFixture) 100 9).db.etl_runs
      = dbFixture.etl_runs ++ [runDriftFixture] :=
  ⟨(execute_success_persists_raw_output_undrifted dbFixture 1 1 21 none true
      (.ok driftOutputFixture) 100 9 runDriftFixture rfl).2.1,
   (execute_success_persists_raw_output_undrifted dbFixture 1 1 21 none true
      (.ok driftOutputFixture) 100 9 runDriftFixture rfl).2.2.2⟩

/-- C6 counterexample: in the spec scenario — definition 21 declares schema
fields `title` and `price`; the run output is `{title: "x"}` — the
spec-side comparison does report drift (and an identically shaped output
does not); but the record the route persists carries no `drifted` key at
all: its keys are exactly `html`, `etl_id`, `output_json`, `user_id`.  No
drift annotation of any kind accompanies the persisted run. -/
theorem execute_drift_annotation_counterexample :
    driftedSpec (Json.obj [("title", Json.str "string"), ("price", Json.str "number")])
        (Json.obj [("title", Json.str "x")]) = true ∧
    driftedSpec (Json.obj [("title", Json.str "string"), ("price", Json.str "number")])
        (Json.obj [("title", Json.str "x"), ("price", Json.str "9")]) = false ∧
    (executeRoutePOST dbFixture 1 1 21 none true
        (.ok (Json.obj [("title", Json.str "x")])) 100 9).result
      = .success runDriftFixture ∧
    (etlRunInsertPayload runDriftFixture).map Prod.fst
      = ["html", "etl_id", "output_json", "user_id"] ∧
    (etlRunInsertPayload runDriftFixture).lookup "drifted" = none :=
  ⟨rfl, rfl, rfl, rfl, rfl⟩

/-! ## Claim C8 -/

/-- C8: creating a snapshot from a successful fetch of non-empty HTML and
then reading it back with the html-run select returns byte-identical HTML,
and the stored content survives any later sequence of modelled operations
unchanged (the model has no update operation on `html` rows; every
operation at most appends). -/
theorem snapshot_roundtrip (db : Db) (userId pageId : Nat) (ts : String)
    (freshId now : Nat) (page : PageRow) (html : String) (scraperMeta : Json)
    (status : Nat)
    (hpage : db.findPage pageId userId = some page)
    (hne : html ≠ "")
    (hfresh : ∀ r ∈ db.htmls, r.id ≠ freshId) :
    htmlRoutePOST db userId pageId (.ok (some html) scraperMeta status) ts freshId now
      = ⟨.success (snapshotRow userId pageId page html ts status scraperMeta freshId now),
         { db with htmls := db.htmls
             ++ [snapshotRow userId pageId page html ts status scraperMeta freshId now] }⟩ ∧
    (snapshotRow userId pageId page html ts status scraperMeta freshId now).html = html ∧
    ∀ ops, Db.findHtml
        (applyOps ops
          (htmlRoutePOST db userId pageId (.ok (some html) scraperMeta status) ts freshId now).db)
        freshId pageId userId
      = some (snapshotRow userId pageId page html ts status scraperMeta freshId now) := by
  have hcond : ¬((html == "") = true) := by simpa using hne
  have hroute : htmlRoutePOST db userId pageId (.ok (some html) scraperMeta status) ts freshId now
      = ⟨.success (snapshotRow userId pageId page html ts status scraperMeta freshId now),
         { db with htmls := db.htmls
             ++ [snapshotRow userId pageId page html ts status scraperMeta freshId now] }⟩ := by
    simp only [htmlRoutePOST, hpage]
    rw [if_neg hcond]
  have hfind0 : (db.htmls ++ [snapshotRow userId pageId page html ts status scraperMeta freshId now]).find?
        (fun h => h.id == freshId && h.page_id == pageId && h.user_id == userId)
      = some (snapshotRow userId pageId page html ts status scraperMeta freshId now) := by
    rw [List.find?_append]
    have h1 : db.htmls.find?
        (fun h => h.id == freshId && h.page_id == pageId && h.user_id == userId) = none := by
      rw [List.find?_eq_none]
      intro r hr hcon
      simp only [Bool.and_eq_true, beq_iff_eq] at hcon
      exact hfresh r hr hcon.1.1
    rw [h1, List.find?_cons_of_pos]
    · rfl
    · simp [snapshotRow]
  have hstable : ∀ ops, Db.findHtml
      (applyOps ops { db with htmls := db.htmls
          ++ [snapshotRow userId pageId page html ts status scraperMeta freshId now] })
      freshId pageId userId
    = some (snapshotRow userId pageId page html ts status scraperMeta freshId now) := by
    intro ops
    obtain ⟨s, hs⟩ := applyOps_htmls ops
      { db with htmls := db.htmls
          ++ [snapshotRow userId pageId page html ts status scraperMeta freshId now] }
    unfold Db.findHtml
    rw [hs]
    exact find?_append_of_some s hfind0
  refine ⟨hroute, rfl, fun ops => ?_⟩
  rw [hroute]
  exact hstable ops

/-- Witness: C8's theorem at the concrete store, with a later execute call
(which persists a run) applied on top — the stored snapshot still reads
back byte-identical. -/
theorem snapshot_roundtrip_witness :
    Db.findHtml
        (applyOps [CoreOp.execute 1 1 20 (some 10) true (.ok (Json.obj [])) 101 8]
          (htmlRoutePOST dbFixture 1 1 (.ok (some "<html>C</html>") Json.null 200) "t0" 50 7).db)
        50 1 1
      = some (snapshotRow 1 1 pageFixture "<html>C</html>" "t0" 200 Json.null 50 7) ∧
    (snapshotRow 1 1 pageFixture "<html>C</html>" "t0" 200 Json.null 50 7).html
      = "<html>C</html>" :=
  ⟨(snapshot_roundtrip dbFixture 1 1 "t0" 50 7 pageFixture "<html>C</html>" Json.null 200
      rfl (by decide) (by decide)).2.2
      [CoreOp.execute 1 1 20 (some 10) true (.ok (Json.obj [])) 101 8],
   (snapshot_roundtrip dbFixture 1 1 "t0" 50 7 pageFixture "<html>C</html>" Json.null 200
      rfl (by decide) (by decide)).2.1⟩

/-! ## Claim C9 -/

/-- C9: when the fetched HTML is absent or empty, the snapshot route
persists nothing and rejects the request (the route's dedicated
no-HTML-returned rejection, the code's realization of the spec's
InvalidInput for empty snapshot content). -/
theorem snapshot_empty_html_rejected (db : Db) (userId pageId : Nat) (ts : String)
    (freshId now : Nat) (page : PageRow) (htmlOpt : Option String)
    (scraperMeta : Json) (status : Nat)
    (hpage : db.findPage pageId userId = some page)
    (hempty : htmlOpt = none ∨ htmlOpt = some "") :
    htmlRoutePOST db userId pageId (.ok htmlOpt scraperMeta status) ts freshId now
      = ⟨.noHtmlFromScraper, db⟩ := by
  rcases hempty with rfl | rfl
  all_goals simp only [htmlRoutePOST, hpage]
  all_goals rfl

/-- Witness: C9's theorem at the concrete store with an empty fetched HTML
string. -/
theorem snapshot_empty_html_rejected_witness :
    htmlRoutePOST dbFixture 1 1 (.ok (some "") Json.null 200) "t0" 50 7
      = ⟨.noHtmlFromScraper, dbFixture⟩ :=
  snapshot_empty_html_rejected dbFixture 1 1 "t0" 50 7 pageFixture (some "")
    Json.null 200 rfl (Or.inr rfl)

/-! ## Claim C10 -/

/-- C10: the public boundary's direct create-definition operation (plain
POST to the per-page etl collection, used by the retrain UI flow) makes no
generation-collaborator call on any request, and for a valid page and
snapshot it inserts a row built verbatim from the caller-supplied body
fields plus the page and user identifiers — so a definition whose code
never came from the generation service can be persisted. -/
theorem direct_create_inserts_caller_body_verbatim (db : Db) (userId pageId : Nat)
    (body : EtlInsertBody) (freshId now : Nat) (page : PageRow) (g : String)
    (hid : Nat) (htmlRun : HtmlRow) (code : String)
    (hpage : db.findPage pageId userId = some page)
    (hgoal : body.goal = some g) (hg : g ≠ "")
    (hhid : body.html_page_run_id = some hid)
    (hrun : db.findHtml hid pageId userId = some htmlRun)
    (hcode : body.src_code = some code) :
    (∀ b f2 n2, (etlRoutePOST db userId pageId b f2 n2).genCalls = 0) ∧
    etlRoutePOST db userId pageId body freshId now
      = ⟨.success (directCreateRow userId pageId body g hid code freshId now),
         { db with etls := db.etls
             ++ [directCreateRow userId pageId body g hid code freshId now] }, 0⟩ := by
  refine ⟨fun b f2 n2 => etlRoutePOST_genCalls db userId pageId b f2 n2, ?_⟩
  have hcond : ¬((g == "") = true) := by simpa using hg
  simp only [etlRoutePOST, hpage, hgoal, hhid, hrun, hcode]
  rw [if_neg hcond]

/-- Witness: C10's theorem at the concrete store, with a caller-supplied
body whose code did not come from the generation service. -/
theorem direct_create_inserts_caller_body_verbatim_witness :
    (etlRoutePOST dbFixture 1 1
        { etl_name := some "Handmade", goal := some "extract title",
          src_code := some "def custom(html): return \x7b\x7d",
          html_page_run_id := some 10, output_json_schema := none } 30 9).genCalls = 0 ∧
    etlRoutePOST dbFixture 1 1
        { etl_name := some "Handmade", goal := some "extract title",
          src_code := some "def custom(html): return \x7b\x7d",
          html_page_run_id := some 10, output_json_schema := none } 30 9
      = ⟨.success (directCreateRow 1 1
            { etl_name := some "Handmade", goal := some "extract title",
              src_code := some "def custom(html): return \x7b\x7d",
              html_page_run_id := some 10, output_json_schema := none }
            "extract title" 10 "def custom(html): return \x7b\x7d" 30 9),
         { dbFixture with etls := dbFixture.etls
             ++ [directCreateRow 1 1
                  { etl_name := some "Handmade", goal := some "extract title",
                    src_code := some "def custom(html): return \x7b\x7d",
                    html_page_run_id := some 10, output_json_schema := none }
                  "extract title" 10 "def custom(html): return \x7b\x7d" 30 9] }, 0⟩ :=
  ⟨(direct_create_inserts_caller_body_verbatim dbFixture 1 1
      { etl_name := some "Handmade", goal := some "extract title",
        src_code := some "def custom(html): return \x7b\x7d",
        html_page_run_id := some 10, output_json_schema := none } 30 9
      pageFixture "extract title" 10 htmlFixture "def custom(html): return \x7b\x7d"
      rfl rfl (by decide) rfl rfl rfl).1
      { etl_name := some "Handmade", goal := some "extract title",
        src_code := some "def custom(html): return \x7b\x7d",
        html_page_run_id := some 10, output_json_schema := none } 30 9,
   (direct_create_inserts_caller_body_verbatim dbFixture 1 1
      { etl_name := some "Handmade", goal := some "extract title",
        src_code := some "def custom(html): return \x7b\x7d",
        html_page_run_id := some 10, output_json_schema := none } 30 9
      pageFixture "extract title" 10 htmlFixture "def custom(html): return \x7b\x7d"
      rfl rfl (by decide) rfl rfl rfl).2⟩

/-! ## Claim C2 -/

/-- Characterization of a successful learn call: the body carried a truthy
goal and snapshot id, the collaborator responded with a truthy (non-empty)
extraction code, and the route appended exactly one definition built from
that response. -/
theorem learnRoutePOST_success {db : Db} {userId pageId : Nat} {goal : Option String}
    {hid : Option Nat} {collab : LearnCollab} {freshId now : Nat} {e : EtlRow} :
    (learnRoutePOST db userId pageId goal hid collab freshId now).result = .success e →
    ∃ g hidv code schema, goal = some g ∧ hid = some hidv ∧
      collab = .ok (some code) schema ∧ (code == "") = false ∧
      e = learnRow userId pageId g hidv code schema freshId now ∧
      learnRoutePOST db userId pageId goal hid collab freshId now
        = ⟨.success e, { db with etls := db.etls ++ [e] }, 1⟩ := by
  unfold learnRoutePOST
  repeat' split
  all_goals intro h
  all_goals try exact absurd h (fun hh => LearnResult.noConfusion hh)
  injection h with h2
  subst h2
  refine ⟨_, _, _, _, rfl, rfl, rfl, ?_, rfl, rfl⟩
  simp only [Bool.eq_false_iff]
  assumption

/-- A learn call that did not return success leaves the store unchanged. -/
theorem learnRoutePOST_not_success_db {db : Db} {userId pageId : Nat}
    {goal : Option String} {hid : Option Nat} {collab : LearnCollab} {freshId now : Nat} :
    (∀ e, (learnRoutePOST db userId pageId goal hid collab freshId now).result ≠ .success e) →
    (learnRoutePOST db userId pageId goal hid collab freshId now).db = db := by
  unfold learnRoutePOST
  repeat' split
  all_goals intro hne
  all_goals try rfl
  exact absurd rfl (hne _)

/-- C2 (amended): when a `Learn` call returns, either it returned success —
then the body's goal and snapshot were present, the collaborator responded
with a truthy (non-empty) extraction code, and exactly one new definition
carrying that code and the returned schema was persisted — or no definition
row was created at all, and at most one collaborator call was made either
way.  However the route's truthiness check only rejects an absent or empty
code string, while readiness everywhere else in the code is the trim-based
test: the persisted definition counts as ready exactly when its code is
non-empty after trimming, so a whitespace-only code yields a persisted
definition that is still pending training. -/
theorem learn_persists_only_truthy_code (db : Db) (userId pageId : Nat)
    (goal : Option String) (hid : Option Nat) (collab : LearnCollab) (freshId now : Nat) :
    (∀ e, (learnRoutePOST db userId pageId goal hid collab freshId now).result = .success e →
      ∃ g hidv code schema, goal = some g ∧ hid = some hidv ∧
        collab = .ok (some code) schema ∧ code ≠ "" ∧
        e = learnRow userId pageId g hidv code schema freshId now ∧
        (learnRoutePOST db userId pageId goal hid collab freshId now).db.etls
          = db.etls ++ [e] ∧
        isTraining e = (jsTrim code == "")) ∧
    ((∀ e, (learnRoutePOST db userId pageId goal hid collab freshId now).result ≠ .success e) →
      (learnRoutePOST db userId pageId goal hid collab freshId now).db = db) ∧
    (learnRoutePOST db userId pageId goal hid collab freshId now).genCalls ≤ 1 := by
  refine ⟨?_, learnRoutePOST_not_success_db,
    learnRoutePOST_genCalls_le_one db userId pageId goal hid collab freshId now⟩
  intro e he
  obtain ⟨g, hidv, code, schema, hg, hh, hc, hcf, herow, heq⟩ := learnRoutePOST_success he
  refine ⟨g, hidv, code, schema, hg, hh, hc, by simpa using hcf, herow, by rw [heq], ?_⟩
  rw [herow]
  show (code == "" || jsTrim code == "") = (jsTrim code == "")
  rw [hcf, Bool.false_or]

/-- C2 counterexample: the generation collaborator answers with the
whitespace-only extraction code " " (present and truthy, so not a failure
by the route's own test).  Learn persists a definition with that code, yet
the persisted definition still satisfies the code's pending-training test,
and a subsequent Execute against it is refused as still being trained — a
persisted PENDING_TRAINING definition after Learn has returned. -/
theorem learn_whitespace_code_counterexample :
    (learnRoutePOST dbFixture 1 1 (some "extract title") (some 10)
        (.ok (some " ") none) 30 9).result
      = .success (learnRow 1 1 "extract title" 10 " " none 30 9) ∧
    (learnRoutePOST dbFixture 1 1 (some "extract title") (some 10)
        (.ok (some " ") none) 30 9).db.etls
      = dbFixture.etls ++ [learnRow 1 1 "extract title" 10 " " none 30 9] ∧
    isTraining (learnRow 1 1 "extract title" 10 " " none 30 9) = true ∧
    executeRoutePOST
        (learnRoutePOST dbFixture 1 1 (some "extract title") (some 10)
          (.ok (some " ") none) 30 9).db
        1 1 30 none true (.ok (Json.obj [])) 100 10
      = ⟨.stillTraining,
         (learnRoutePOST dbFixture 1 1 (some "extract title") (some 10)
           (.ok (some " ") none) 30 9).db, []⟩ :=
  ⟨rfl, rfl, by decide, rfl⟩

/-! ## Claim C7 -/

/-- C7: the retrain flow evaluated on a ready parent definition (goal
"extract title", non-empty code, training snapshot 10) with refinement goal
"also extract price".  `handleRetrain` composes the parent's goal with the
refinement text and sends it, with the parent's training snapshot, to the
direct create route — not to the learn route, so no generation-collaborator
call is made (the outcome records zero) — and the request body carries no
`src_code`, so the insert violates the `etl` table's `src_code NOT NULL`
constraint: the route answers with the insert error, the store is
unchanged, and no new definition is created. -/
theorem retrain_makes_no_generation_call_and_fails :
    handleRetrain dbFixture 1 1 readyEtlFixture "also extract price" 30 9
      = some ⟨.insertFailed, dbFixture, 0⟩ ∧
    (retrainRequestBody readyEtlFixture "also extract price").src_code = none ∧
    (retrainRequestBody readyEtlFixture "also extract price").goal
      = some "extract title\n\nRefinement Goal: also extract price" ∧
    (retrainRequestBody readyEtlFixture "also extract price").html_page_run_id
      = some readyEtlFixture.html_page_run_id :=
  ⟨rfl, rfl, rfl, rfl⟩

/-! ## Claim C1 -/

/-- C1 (amended): the execute route implements no execution lease: two
Execute calls for the same definition-snapshot pair that both succeed each
invoke the execution collaborator once, so any schedule interleaving their
traces — overlapping ones included — contains exactly two collaborator
calls for the pair and two run inserts.  Each call nevertheless persists
its own independent run row, so no update is lost. -/
theorem concurrent_execute_duplicates_collab_calls (db : Db) (userId pageId etlId : Nat)
    (hid : Option Nat) (cfg : Bool) (collab₁ collab₂ : ExecCollab)
    (f₁ f₂ n₁ n₂ : Nat) (run₁ run₂ : EtlRunRow) (sched : List (Bool × ExecEvent))
    (h₁ : (executeRoutePOST db userId pageId etlId hid cfg collab₁ f₁ n₁).result = .success run₁)
    (h₂ : (executeRoutePOST db userId pageId etlId hid cfg collab₂ f₂ n₂).result = .success run₂)
    (hpair : run₂.html = run₁.html)
    (hm : Merge (executeRoutePOST db userId pageId etlId hid cfg collab₁ f₁ n₁).events
                (executeRoutePOST db userId pageId etlId hid cfg collab₂ f₂ n₂).events sched) :
    collabCallsFor (etlId, run₁.html) (sched.map Prod.snd) = 2 ∧
    insertsIn (sched.map Prod.snd) = 2 ∧
    (executeRoutePOST db userId pageId etlId hid cfg collab₁ f₁ n₁).db.etl_runs
      = db.etl_runs ++ [run₁] ∧
    (executeRoutePOST db userId pageId etlId hid cfg collab₂ f₂ n₂).db.etl_runs
      = db.etl_runs ++ [run₂] := by
  obtain ⟨out₁, _, _, _, _, _, _, heq₁⟩ := executeRoutePOST_success h₁
  obtain ⟨out₂, _, _, _, _, _, _, heq₂⟩ := executeRoutePOST_success h₂
  rw [heq₁, heq₂] at hm
  have hcount := hm.countP_map_snd (ExecEvent.isCollabCallFor (etlId, run₁.html))
  have hins := hm.countP_map_snd ExecEvent.isInsert
  refine ⟨?_, ?_, by rw [heq₁], by rw [heq₂]⟩
  · unfold collabCallsFor
    rw [hcount, hpair]
    simp [ExecEvent.isCollabCallFor, List.countP_cons]
  · unfold insertsIn
    rw [hins]
    simp [ExecEvent.isInsert, List.countP_cons]

/-- Witness: C1's amended theorem at the concrete store, on the
call–call–insert–insert interleaving of two executions of definition 20
against snapshot 10. -/
theorem concurrent_execute_duplicates_collab_calls_witness :
    collabCallsFor (20, 10)
        ([(true, ExecEvent.collabCall 20 10), (false, ExecEvent.collabCall 20 10),
          (true, ExecEvent.insertRun runAFixture),
          (false, ExecEvent.insertRun runBFixture)].map Prod.snd) = 2 ∧
    insertsIn
        ([(true, ExecEvent.collabCall 20 10), (false, ExecEvent.collabCall 20 10),
          (true, ExecEvent.insertRun runAFixture),
          (false, ExecEvent.insertRun runBFixture)].map Prod.snd) = 2 :=
  ⟨(concurrent_execute_duplicates_collab_calls dbFixture 1 1 20 (some 10) true
      (.ok (Json.obj [])) (.ok (Json.obj [])) 100 101 9 9 runAFixture runBFixture
      _ rfl rfl rfl
      (Merge.left (Merge.right (Merge.left (Merge.right Merge.nil))))).1,
   (concurrent_execute_duplicates_collab_calls dbFixture 1 1 20 (some 10) true
      (.ok (Json.obj [])) (.ok (Json.obj [])) 100 101 9 9 runAFixture runBFixture
      _ rfl rfl rfl
      (Merge.left (Merge.right (Merge.left (Merge.right Merge.nil))))).2.1⟩

/-- C1 counterexample: there is no lease — the schedule interleaving two
Execute calls for the same pair (definition 20, snapshot 10) as
call–call–insert–insert is a valid interleaving of the two calls' event
traces, the two calls overlap in it, and it contains two collaborator
calls for that pair during the overlap, not at most one as the claim
demands. -/
theorem concurrent_execute_counterexample :
    Merge (executeRoutePOST dbFixture 1 1 20 (some 10) true (.ok (Json.obj [])) 100 9).events
          (executeRoutePOST dbFixture 1 1 20 (some 10) true (.ok (Json.obj [])) 101 9).events
          [(true, ExecEvent.collabCall 20 10), (false, ExecEvent.collabCall 20 10),
           (true, ExecEvent.insertRun runAFixture),
           (false, ExecEvent.insertRun runBFixture)] ∧
    overlapping
        ([(true, ExecEvent.collabCall 20 10), (false, ExecEvent.collabCall 20 10),
          (true, ExecEvent.insertRun runAFixture),
          (false, ExecEvent.insertRun runBFixture)].map Prod.fst) = true ∧
    ¬ collabCallsFor (20, 10)
        ([(true, ExecEvent.collabCall 20 10), (false, ExecEvent.collabCall 20 10),
          (true, ExecEvent.insertRun runAFixture),
          (false, ExecEvent.insertRun runBFixture)].map Prod.snd) ≤ 1 :=
  ⟨Merge.left (Merge.right (Merge.left (Merge.right Merge.nil))), by decide, by decide⟩
